import Mathlib

/-
Verification of the Centsible account and ownership-scoped ledger service.

The definitions below are a shallow embedding of the backend source:
  - models/User.js            (user schema, OTP generation, password hashing hook)
  - models/Transaction.js     (transaction schema: type enum, amount min 0)
  - routes/auth.js            (register / verify / login / forgot-password)
  - routes/transactions.js    (user-scoped list / create / update / delete / summary)
  - utils/sendEmail.js        (throws on delivery failure)

Conventions: the persistent store is passed explicitly; `Date.now()` is an
explicit `now : Nat` (milliseconds); `Math.random()` draws are explicit `rnd`
parameters; the outbound mail collaborator is a boolean `mailOk` outcome.
Each route returns a pair of the HTTP-level result and the store after the call.
-/

namespace Centsible

/-- Whitespace test used by the embedded `trim` (ASCII whitespace). -/
def isSpaceChar (c : Char) : Bool :=
  c = ' ' || c = '\t' || c = '\n' || c = '\r'

/-- Embedding of `String.prototype.trim` / the mongoose `trim` setter. -/
def strTrim (s : String) : String :=
  ⟨((s.data.dropWhile isSpaceChar).reverse.dropWhile isSpaceChar).reverse⟩

/-- Embedding of the mongoose `lowercase` setter. -/
def strLower (s : String) : String :=
  ⟨s.data.map Char.toLower⟩

/-- JavaScript truthiness for an optional string field of a JSON body:
`!x` holds when the field is absent or the empty string. -/
def falsyStr : Option String → Bool
  | none => true
  | some s => decide (s = "")

/-- JavaScript truthiness for an optional numeric field of a JSON body:
`!x` holds when the field is absent or zero. -/
def falsyInt : Option Int → Bool
  | none => true
  | some n => decide (n = 0)

/-- Regular expressions with character classes, used to embed the email
pattern of `models/User.js` via Brzozowski derivatives. -/
inductive Rx where
  | fail
  | eps
  | cls (p : Char → Bool)
  | cat (r s : Rx)
  | alt (r s : Rx)
  | star (r : Rx)

/-- Nullability: whether the regex accepts the empty string. -/
def rxNullable : Rx → Bool
  | .fail => false
  | .eps => true
  | .cls _ => false
  | .cat r s => rxNullable r && rxNullable s
  | .alt r s => rxNullable r || rxNullable s
  | .star _ => true

/-- Smart concatenation (language-preserving simplification). -/
def rxCat : Rx → Rx → Rx
  | .fail, _ => .fail
  | _, .fail => .fail
  | .eps, s => s
  | r, .eps => r
  | r, s => .cat r s

/-- Smart alternation (language-preserving simplification). -/
def rxAlt : Rx → Rx → Rx
  | .fail, s => s
  | r, .fail => r
  | r, s => .alt r s

/-- Brzozowski derivative of a regex by one character. -/
def rxDeriv : Rx → Char → Rx
  | .fail, _ => .fail
  | .eps, _ => .fail
  | .cls p, c => if p c then .eps else .fail
  | .cat r s, c =>
      if rxNullable r then rxAlt (rxCat (rxDeriv r c) s) (rxDeriv s c)
      else rxCat (rxDeriv r c) s
  | .alt r s, c => rxAlt (rxDeriv r c) (rxDeriv s c)
  | .star r, c => rxCat (rxDeriv r c) (.star r)

/-- Full-string regex matching by iterated derivatives. -/
def rxMatch (r : Rx) (s : String) : Bool :=
  rxNullable (s.data.foldl rxDeriv r)

/-- JavaScript word character, the regex class backslash-w. -/
def wordChar (c : Char) : Bool :=
  c.isAlphanum || c = '_'

/-- Optional occurrence of a regex. -/
def rxOpt (r : Rx) : Rx := .alt r .eps

/-- One word character. -/
def rxWord : Rx := .cls wordChar

/-- One or more word characters. -/
def rxWordPlus : Rx := .cat rxWord (.star rxWord)

/-- Separator class of the email pattern: dot or hyphen. -/
def rxSep : Rx := .cls (fun c => c = '.' || c = '-')

/-- Name part of the email pattern: word chars optionally separated. -/
def rxNamePart : Rx := .cat rxWordPlus (.star (.cat (rxOpt rxSep) rxWordPlus))

/-- Top-level-domain piece of the email pattern: a dot then 2 or 3 word chars. -/
def rxTld : Rx := .cat (.cls (fun c => c = '.')) (.cat rxWord (.cat rxWord (rxOpt rxWord)))

/-- Embedding of the email regex literal of `models/User.js`. -/
def emailRx : Rx :=
  .cat rxNamePart (.cat (.cls (fun c => c = '@')) (.cat rxNamePart (.cat rxTld (.star rxTld))))

/-- Email validity check of the user schema (`match` validator). -/
def emailValid (s : String) : Bool :=
  rxMatch emailRx s

/-- Normalization applied by the email path setters of the user schema
(`lowercase` and `trim`). -/
def normalizeEmail (e : String) : String :=
  strLower (strTrim e)

/-- Embedding of `bcrypt.hash(plain, salt)` with cost factor 10, from the
pre-save hook of `models/User.js`. The salt draw is an explicit parameter;
the output carries the bcrypt version and cost header, the salt, and a
separator before the digest payload, so it always strictly extends the input. -/
def bcryptHash (salt : Nat) (plain : String) : String :=
  ⟨("$2b$10$" ++ toString salt ++ "$").data ++ plain.data⟩

/-- Embedding of `bcrypt.compare(candidate, storedHash)` from
`userSchema.methods.comparePassword`. -/
def bcryptCompare (plain hash : String) : Bool :=
  "$2b$10$".data.isPrefixOf hash.data && ("$" ++ plain).data.reverse.isPrefixOf hash.data.reverse

/-- Six-digit One-time-password string from a random draw, embedding
`Math.floor(100000 + Math.random() * 900000).toString()` of
`userSchema.methods.generateOTP` and `generateResetOTP`. -/
def otpString (rnd : Nat) : String :=
  toString (100000 + rnd % 900000)

/-- Expiry window of both OTP slots: 10 minutes in milliseconds. -/
def otpWindowMs : Nat := 10 * 60 * 1000

/-- Signed session token, embedding `jwt.sign` with the identity reference
payload (`generateToken` of `middleware/auth.js`). -/
structure AuthToken where
  userId : Nat
deriving DecidableEq, Repr

/-- Embedding of `generateToken(userId)` of `middleware/auth.js`. -/
def generateToken (userId : Nat) : AuthToken :=
  ⟨userId⟩

/-- Identity record, embedding the user schema of `models/User.js`.
Optional fields model mongoose paths that may be `undefined`. -/
structure User where
  id : Nat
  name : String
  email : String
  password : String
  isVerified : Bool
  otp : Option String
  otpExpires : Option Nat
  resetPasswordOTP : Option String
  resetPasswordExpires : Option Nat
deriving DecidableEq, Repr

/-- Persistent collection of users. -/
structure AuthStore where
  users : List User
deriving DecidableEq, Repr

/-- Embedding of `User.findOne(\x7b email \x7d)`: mongoose applies the email
path setters when casting the filter. -/
def findUserByEmail (st : AuthStore) (email : String) : Option User :=
  st.users.find? (fun u => decide (u.email = normalizeEmail email))

/-- HTTP-level error response: status code and error message. -/
structure ApiError where
  status : Nat
  error : String
deriving DecidableEq, Repr

/-- Success payload of `POST /register`: only email and name are returned. -/
structure RegisterData where
  email : String
  name : String
deriving DecidableEq, Repr

/-- Success payload of `POST /verify` and `POST /login`: token plus the
public identity fields. -/
structure AuthSuccess where
  token : AuthToken
  id : Nat
  name : String
  email : String
  isVerified : Bool
deriving DecidableEq, Repr

/-- Embedding of `POST /register` of `routes/auth.js`. Validation of the
saved document follows the user schema: required trimmed name, email
pattern on the normalized value, password minimum length 6 (checked on the
plaintext, since document validation runs before the hashing hook). The
user is saved before the OTP email is dispatched, so a delivery failure is
reported after the identity is persisted. -/
def register (st : AuthStore) (now rnd salt newId : Nat) (mailOk : Bool)
    (name email password : Option String) : Except ApiError RegisterData × AuthStore :=
  if falsyStr name || falsyStr email || falsyStr password then
    (.error ⟨400, "Please provide name, email, and password"⟩, st)
  else
    match findUserByEmail st (email.getD "") with
    | some _ => (.error ⟨400, "Email already registered"⟩, st)
    | none =>
      let namev := strTrim (name.getD "")
      let emailv := normalizeEmail (email.getD "")
      let pw := password.getD ""
      if namev = "" then (.error ⟨500, "User validation failed"⟩, st)
      else if ¬ emailValid emailv then (.error ⟨500, "User validation failed"⟩, st)
      else if pw.length < 6 then (.error ⟨500, "User validation failed"⟩, st)
      else
        let u : User :=
          { id := newId, name := namev, email := emailv,
            password := bcryptHash salt pw, isVerified := false,
            otp := some (otpString rnd), otpExpires := some (now + otpWindowMs),
            resetPasswordOTP := none, resetPasswordExpires := none }
        let st1 : AuthStore := ⟨st.users ++ [u]⟩
        if mailOk then (.ok ⟨u.email, u.name⟩, st1)
        else (.error ⟨500, "Email could not be sent"⟩, st1)

/-- Expiry test `Date.now() > user.otpExpires`: false when the expiry is
undefined, matching the NaN comparison semantics of JavaScript. -/
def otpExpired (now : Nat) (expires : Option Nat) : Bool :=
  match expires with
  | some e => decide (e < now)
  | none => false

/-- Embedding of `POST /verify` of `routes/auth.js`. -/
def verifyEmail (st : AuthStore) (now : Nat) (email otpIn : Option String) :
    Except ApiError AuthSuccess × AuthStore :=
  if falsyStr email || falsyStr otpIn then
    (.error ⟨400, "Please provide email and OTP"⟩, st)
  else
    match findUserByEmail st (email.getD "") with
    | none => (.error ⟨404, "User not found"⟩, st)
    | some u =>
      if u.isVerified then (.error ⟨400, "Email already verified"⟩, st)
      else if u.otp ≠ some (otpIn.getD "") then (.error ⟨400, "Invalid OTP"⟩, st)
      else if otpExpired now u.otpExpires then
        (.error ⟨400, "OTP has expired. Please request a new one."⟩, st)
      else
        let u1 : User := { u with isVerified := true, otp := none, otpExpires := none }
        (.ok ⟨generateToken u.id, u.id, u.name, u.email, true⟩,
         ⟨st.users.map (fun v => if v.id = u.id then u1 else v)⟩)

/-- Embedding of `POST /login` of `routes/auth.js`: the verification flag is
checked before the password comparison ever runs. -/
def login (st : AuthStore) (email password : Option String) :
    Except ApiError AuthSuccess × AuthStore :=
  if falsyStr email || falsyStr password then
    (.error ⟨400, "Please provide email and password"⟩, st)
  else
    match findUserByEmail st (email.getD "") with
    | none => (.error ⟨401, "Invalid credentials"⟩, st)
    | some u =>
      if ¬ u.isVerified then (.error ⟨401, "Please verify your email first"⟩, st)
      else if ¬ bcryptCompare (password.getD "") u.password then
        (.error ⟨401, "Invalid credentials"⟩, st)
      else
        (.ok ⟨generateToken u.id, u.id, u.name, u.email, u.isVerified⟩, st)

/-- Embedding of `POST /forgot-password` of `routes/auth.js`: the reset OTP
and expiry are saved before `sendEmail` runs, and the route catch handler
does not undo the save, so a delivery failure leaves the fresh OTP stored. -/
def forgotPassword (st : AuthStore) (now rnd : Nat) (mailOk : Bool) (email : Option String) :
    Except ApiError String × AuthStore :=
  if falsyStr email then
    (.error ⟨400, "Please provide email"⟩, st)
  else
    match findUserByEmail st (email.getD "") with
    | none => (.error ⟨404, "No account found with that email"⟩, st)
    | some u =>
      let u1 : User :=
        { u with resetPasswordOTP := some (otpString rnd),
                 resetPasswordExpires := some (now + otpWindowMs) }
      let st1 : AuthStore := ⟨st.users.map (fun v => if v.id = u.id then u1 else v)⟩
      if mailOk then (.ok "Password reset OTP sent to your email", st1)
      else (.error ⟨500, "Failed to process request"⟩, st1)

/-- Kind of a ledger entry: the `type` enum of `models/Transaction.js`,
a closed two-value set. -/
inductive TxKind where
  | income
  | expense
deriving DecidableEq, Repr

/-- Ledger entry, embedding the user-scoped transaction schema of
`models/Transaction.js`: owning user reference, kind, amount, category,
occurrence date (milliseconds), optional description. -/
structure Transaction where
  id : Nat
  user : Nat
  type : TxKind
  amount : Int
  category : String
  date : Int
  description : Option String
deriving DecidableEq, Repr

/-- Persistent collection of transactions. -/
structure TxStore where
  transactions : List Transaction
deriving DecidableEq, Repr

/-- Save-time schema validation of `models/Transaction.js`: `amount` has
`min 0`, `category` is required (after the trim setter), `description` has
`maxlength 500`. The `type` enum and the `user` reference are handled by
construction at the call sites. -/
def txSchemaErr (t : Transaction) : Option String :=
  if t.amount < 0 then some "Amount cannot be negative"
  else if t.category = "" then some "Category is required"
  else
    match t.description with
    | some d => if 500 < d.length then some "Description cannot exceed 500 characters" else none
    | none => none

/-- Parse a raw `type` string against the schema enum. -/
def parseKind (s : String) : Option TxKind :=
  if s = "income" then some .income
  else if s = "expense" then some .expense
  else none

/-- Optional query filters of `GET /` of `routes/transactions.js`. -/
structure ListFilters where
  type : Option TxKind
  category : Option String
  startDate : Option Int
  endDate : Option Int
deriving DecidableEq, Repr

/-- Mongo query predicate built by `GET /`: always scoped to
`user = req.user._id`, with the optional equality and date-range filters. -/
def matchesQuery (uid : Nat) (f : ListFilters) (t : Transaction) : Bool :=
  decide (t.user = uid)
  && (match f.type with | none => true | some k => decide (t.type = k))
  && (match f.category with | none => true | some c => decide (t.category = c))
  && (match f.startDate with | none => true | some d => decide (d ≤ t.date))
  && (match f.endDate with | none => true | some d => decide (t.date ≤ d))

/-- Insert one entry into a list kept in descending date order. -/
def insertByDateDesc (t : Transaction) : List Transaction → List Transaction
  | [] => [t]
  | u :: us => if u.date ≤ t.date then t :: u :: us else u :: insertByDateDesc t us

/-- Sort entries by occurrence date descending, embedding `.sort(date: -1)`. -/
def sortByDateDesc : List Transaction → List Transaction
  | [] => []
  | t :: ts => insertByDateDesc t (sortByDateDesc ts)

/-- Embedding of `GET /` of `routes/transactions.js` (user-scoped list):
filter by the scoped query, sort by date descending, cap at 100 rows. -/
def listTransactions (st : TxStore) (uid : Nat) (f : ListFilters) : List Transaction :=
  (sortByDateDesc (st.transactions.filter (matchesQuery uid f))).take 100

/-- JSON body of `POST /` (create): raw optional fields as sent by a client. -/
structure CreateBody where
  type : Option String
  amount : Option Int
  category : Option String
  date : Option Int
  description : Option String
deriving DecidableEq, Repr

/-- Embedding of `POST /` of `routes/transactions.js` (user-scoped create):
the handler rejects falsy `type`, `amount`, `category`, `date`; then the
document is saved under the schema (enum on `type`, `min 0` on `amount`,
trim setters), owned by the logged-in user, with a server-assigned id. -/
def txValidationError : ApiError :=
  ⟨400, "Transaction validation failed"⟩

/-- Saving a new transaction document: schema validation, then append. -/
def saveNewTransaction (st : TxStore) (t : Transaction) :
    Except ApiError Transaction × TxStore :=
  match txSchemaErr t with
  | some _ => (.error txValidationError, st)
  | none => (.ok t, ⟨st.transactions ++ [t]⟩)

/-- Saving a fetched document after mutation: schema validation, then
write-back of the document with that id. -/
def saveReplaceTransaction (st : TxStore) (t1 : Transaction) :
    Except ApiError Transaction × TxStore :=
  match txSchemaErr t1 with
  | some _ => (.error txValidationError, st)
  | none => (.ok t1, ⟨st.transactions.map (fun u => if u.id = t1.id then t1 else u)⟩)

def createTransaction (st : TxStore) (uid newId : Nat) (b : CreateBody) :
    Except ApiError Transaction × TxStore :=
  if falsyStr b.type || falsyInt b.amount || falsyStr b.category || falsyInt b.date then
    (.error ⟨400, "Please provide type, amount, category, and date"⟩, st)
  else
    match parseKind (b.type.getD "") with
    | none => (.error txValidationError, st)
    | some k =>
      saveNewTransaction st
        { id := newId, user := uid, type := k, amount := b.amount.getD 0,
          category := strTrim (b.category.getD ""), date := b.date.getD 0,
          description := b.description.map strTrim }

/-- JSON body of `PUT /:id` (update): any present field is copied onto the
found document by `Object.assign(transaction, req.body)`, including a
`user` field if the client sends one. -/
structure UpdateBody where
  user : Option Nat
  type : Option String
  amount : Option Int
  category : Option String
  date : Option Int
  description : Option String
deriving DecidableEq, Repr

/-- Value of the `type` path after `Object.assign`: the body value (cast
against the enum) when present, the stored kind otherwise. -/
def assignKind (old : TxKind) (new : Option String) : Option TxKind :=
  match new with
  | none => some old
  | some s => parseKind s

/-- Value of the `description` path after `Object.assign` (trim setter). -/
def assignDesc (old new : Option String) : Option String :=
  match new with
  | none => old
  | some s => some (strTrim s)

/-- Embedding of `PUT /:id` of `routes/transactions.js` (user-scoped update):
`findOne` scoped to the caller, 404 when no owned entry has the id;
otherwise `Object.assign` copies every present body field onto the document
(through the schema setters) and `save` re-runs the schema validation. -/
def updateTransaction (st : TxStore) (uid id : Nat) (b : UpdateBody) :
    Except ApiError Transaction × TxStore :=
  match st.transactions.find? (fun t => decide (t.id = id) && decide (t.user = uid)) with
  | none => (.error ⟨404, "Transaction not found"⟩, st)
  | some t =>
    match assignKind t.type b.type with
    | none => (.error txValidationError, st)
    | some k =>
      saveReplaceTransaction st
        { id := t.id,
          user := b.user.getD t.user,
          type := k,
          amount := b.amount.getD t.amount,
          category := (b.category.map strTrim).getD t.category,
          date := b.date.getD t.date,
          description := assignDesc t.description b.description }

/-- Embedding of `DELETE /:id` of `routes/transactions.js` (user-scoped
delete): `findOneAndDelete` scoped to the caller, 404 when no owned entry
has the id, otherwise removes the matched document and returns its snapshot. -/
def deleteTransaction (st : TxStore) (uid id : Nat) :
    Except ApiError Transaction × TxStore :=
  match st.transactions.find? (fun t => decide (t.id = id) && decide (t.user = uid)) with
  | none => (.error ⟨404, "Transaction not found"⟩, st)
  | some t =>
    (.ok t, ⟨st.transactions.eraseP (fun u => decide (u.id = id) && decide (u.user = uid))⟩)

/-- Summary payload of `GET /stats/summary`. -/
structure TxSummary where
  totalIncome : Int
  totalExpenses : Int
  balance : Int
  transactionCount : Nat
deriving DecidableEq, Repr

/-- Embedding of `GET /stats/summary` of `routes/transactions.js`: scans all
of the caller's entries (no 100-row cap), reduces amounts by kind, and
reports balance as income minus expenses. -/
def getSummary (st : TxStore) (uid : Nat) : TxSummary :=
  let ts := st.transactions.filter (fun t => decide (t.user = uid))
  let totalIncome :=
    (ts.filter (fun t => decide (t.type = TxKind.income))).foldl (fun s t => s + t.amount) 0
  let totalExpenses :=
    (ts.filter (fun t => decide (t.type = TxKind.expense))).foldl (fun s t => s + t.amount) 0
  { totalIncome := totalIncome, totalExpenses := totalExpenses,
    balance := totalIncome - totalExpenses, transactionCount := ts.length }

theorem mem_insertByDateDesc {a t : Transaction} {l : List Transaction} :
    a ∈ insertByDateDesc t l ↔ a = t ∨ a ∈ l := by
  induction l with
  | nil => simp [insertByDateDesc]
  | cons u us ih =>
    simp only [insertByDateDesc]
    split
    · simp [List.mem_cons]
    · simp only [List.mem_cons, ih]
      tauto

theorem pairwise_insertByDateDesc {t : Transaction} {l : List Transaction}
    (hl : l.Pairwise (fun a b => b.date ≤ a.date)) :
    (insertByDateDesc t l).Pairwise (fun a b => b.date ≤ a.date) := by
  induction l with
  | nil => simp [insertByDateDesc]
  | cons u us ih =>
    rcases List.pairwise_cons.1 hl with ⟨hu, hus⟩
    simp only [insertByDateDesc]
    split
    next hle =>
      refine List.pairwise_cons.2 ⟨?_, hl⟩
      intro x hx
      rcases List.mem_cons.1 hx with rfl | hx
      · exact hle
      · exact le_trans (hu x hx) hle
    next hgt =>
      refine List.pairwise_cons.2 ⟨?_, ih hus⟩
      intro x hx
      rcases mem_insertByDateDesc.1 hx with rfl | hx
      · exact le_of_not_le hgt
      · exact hu x hx

theorem mem_sortByDateDesc {a : Transaction} {l : List Transaction} :
    a ∈ sortByDateDesc l ↔ a ∈ l := by
  induction l with
  | nil => simp [sortByDateDesc]
  | cons t ts ih => simp [sortByDateDesc, mem_insertByDateDesc, ih]

theorem pairwise_sortByDateDesc (l : List Transaction) :
    (sortByDateDesc l).Pairwise (fun a b => b.date ≤ a.date) := by
  induction l with
  | nil => simp [sortByDateDesc]
  | cons t ts ih => exact pairwise_insertByDateDesc ih

theorem foldl_add_amount (l : List Transaction) (a : Int) :
    l.foldl (fun s t => s + t.amount) a = a + (l.map Transaction.amount).sum := by
  induction l generalizing a with
  | nil => simp
  | cons t ts ih =>
    simp only [List.foldl_cons, List.map_cons, List.sum_cons, ih]
    ring

theorem bcryptHash_ne (salt : Nat) (plain : String) : bcryptHash salt plain ≠ plain := by
  intro h
  have hlen : (bcryptHash salt plain).data.length = plain.data.length := by rw [h]
  have hd : (bcryptHash salt plain).data
      = ("$2b$10$" ++ toString salt).data ++ "$".data ++ plain.data := by
    simp only [bcryptHash, String.data_append]
  rw [hd, List.length_append, List.length_append] at hlen
  have h1 : "$".data.length = 1 := rfl
  omega

theorem saveNewTransaction_ok {st : TxStore} {t0 t : Transaction} {st1 : TxStore}
    (h : saveNewTransaction st t0 = (.ok t, st1)) :
    t = t0 ∧ 0 ≤ t.amount ∧ st1.transactions = st.transactions ++ [t] := by
  unfold saveNewTransaction at h
  split at h
  · simp at h
  next hval =>
    simp only [Prod.mk.injEq, Except.ok.injEq] at h
    obtain ⟨ht, hst⟩ := h
    subst ht
    subst hst
    refine ⟨rfl, ?_, rfl⟩
    by_contra hneg
    have hlt : t0.amount < 0 := by omega
    simp only [txSchemaErr, if_pos hlt] at hval
    exact Option.some_ne_none _ hval

theorem saveReplaceTransaction_ok {st : TxStore} {t1 t : Transaction} {st1 : TxStore}
    (h : saveReplaceTransaction st t1 = (.ok t, st1)) :
    t = t1 ∧ 0 ≤ t.amount
      ∧ st1.transactions = st.transactions.map (fun u => if u.id = t.id then t else u) := by
  unfold saveReplaceTransaction at h
  split at h
  · simp at h
  next hval =>
    simp only [Prod.mk.injEq, Except.ok.injEq] at h
    obtain ⟨ht, hst⟩ := h
    subst ht
    subst hst
    refine ⟨rfl, ?_, rfl⟩
    by_contra hneg
    have hlt : t1.amount < 0 := by omega
    simp only [txSchemaErr, if_pos hlt] at hval
    exact Option.some_ne_none _ hval

theorem createTransaction_ok {st : TxStore} {uid newId : Nat} {b : CreateBody}
    {t : Transaction} {st1 : TxStore}
    (h : createTransaction st uid newId b = (.ok t, st1)) :
    t.user = uid ∧ t.id = newId ∧ 0 < t.amount
      ∧ (t.type = .income ∨ t.type = .expense)
      ∧ st1.transactions = st.transactions ++ [t] := by
  unfold createTransaction at h
  split at h
  · simp at h
  next hguard =>
    split at h
    · simp at h
    next k hk =>
      obtain ⟨ht, hge, hst⟩ := saveNewTransaction_ok h
      subst ht
      refine ⟨rfl, rfl, ?_, ?_, hst⟩
      · have hnz : b.amount.getD 0 ≠ 0 := by
          intro hn
          apply hguard
          rcases hb : b.amount with _ | n
          · simp [falsyInt, hb]
          · rw [hb] at hn
            simp only [Option.getD_some] at hn
            simp [falsyInt, hb, hn]
        have hge1 : (0 : Int) ≤ b.amount.getD 0 := hge
        show (0 : Int) < b.amount.getD 0
        omega
      · cases k
        · exact Or.inl rfl
        · exact Or.inr rfl

theorem updateTransaction_ok {st : TxStore} {uid eid : Nat} {b : UpdateBody}
    {t : Transaction} {st1 : TxStore}
    (h : updateTransaction st uid eid b = (.ok t, st1)) :
    0 ≤ t.amount ∧ (t.type = .income ∨ t.type = .expense) ∧ t.id = eid
      ∧ (b.user = none → t.user = uid)
      ∧ (∀ s ∈ st1.transactions, s ∈ st.transactions ∨ s = t) := by
  unfold updateTransaction at h
  split at h
  · simp at h
  next t0 hfind =>
    have hp := List.find?_some hfind
    simp only [Bool.and_eq_true, decide_eq_true_eq] at hp
    split at h
    · simp at h
    next k hk =>
      obtain ⟨ht, hge, hst⟩ := saveReplaceTransaction_ok h
      subst ht
      refine ⟨hge, ?_, hp.1, ?_, ?_⟩
      · cases k
        · exact Or.inl rfl
        · exact Or.inr rfl
      · intro hb
        simp [hb, hp.2]
      · intro s hs
        rw [hst] at hs
        obtain ⟨x, hx, hxe⟩ := List.mem_map.1 hs
        by_cases hid : x.id = t0.id
        · right
          rw [← hxe]
          simp [hid]
        · left
          rw [← hxe]
          simpa [hid] using hx

/-- C1: ownership isolation. For every identity `A` and entry id, `list`
scoped to `A` returns only entries owned by `A`; and when no entry with the
given id is owned by `A` (in particular when it belongs to another identity),
`update` and `delete` fail with the 404 Transaction-not-found error and leave
the store unchanged, so no call scoped to `A` returns or mutates another
identity's entry. -/
theorem ownership_isolation (st : TxStore) (A eid : Nat) (f : ListFilters) (b : UpdateBody)
    (hB : ∀ t ∈ st.transactions, t.id = eid → t.user ≠ A) :
    (∀ t ∈ listTransactions st A f, t.user = A)
    ∧ updateTransaction st A eid b = (.error ⟨404, "Transaction not found"⟩, st)
    ∧ deleteTransaction st A eid = (.error ⟨404, "Transaction not found"⟩, st) := by
  have hfind :
      st.transactions.find? (fun t => decide (t.id = eid) && decide (t.user = A)) = none := by
    rw [List.find?_eq_none]
    intro x hx
    simp only [Bool.and_eq_true, decide_eq_true_eq, not_and]
    intro h1 h2
    exact hB x hx h1 h2
  refine ⟨?_, ?_, ?_⟩
  · intro t ht
    have ht1 : t ∈ sortByDateDesc (st.transactions.filter (matchesQuery A f)) :=
      List.take_subset _ _ ht
    have hq := (List.mem_filter.1 (mem_sortByDateDesc.1 ht1)).2
    unfold matchesQuery at hq
    simp only [Bool.and_eq_true, decide_eq_true_eq] at hq
    exact hq.1.1.1.1
  · simp [updateTransaction, hfind]
  · simp [deleteTransaction, hfind]

/-- C1 witness: a store holding one entry owned by identity 2; calls scoped
to identity 1 see nothing and cannot touch it. -/
theorem ownership_isolation_witness :
    (∀ t ∈ listTransactions ⟨[⟨1, 2, TxKind.income, 5, "Salary", 10, none⟩]⟩ 1
        ⟨none, none, none, none⟩, t.user = 1)
    ∧ updateTransaction ⟨[⟨1, 2, TxKind.income, 5, "Salary", 10, none⟩]⟩ 1 1
        ⟨none, none, none, none, none, none⟩
        = (.error ⟨404, "Transaction not found"⟩,
           ⟨[⟨1, 2, TxKind.income, 5, "Salary", 10, none⟩]⟩)
    ∧ deleteTransaction ⟨[⟨1, 2, TxKind.income, 5, "Salary", 10, none⟩]⟩ 1 1
        = (.error ⟨404, "Transaction not found"⟩,
           ⟨[⟨1, 2, TxKind.income, 5, "Salary", 10, none⟩]⟩) :=
  ownership_isolation _ 1 1 _ _ (by decide)

/-- C8: for every identity and every combination of optional filters, the
list result is ordered by occurrence date descending, holds at most 100
entries, and every returned entry is owned by the caller and matches each
supplied filter. -/
theorem list_sorted_capped_scoped (st : TxStore) (uid : Nat) (f : ListFilters) :
    List.Pairwise (fun a b => b.date ≤ a.date) (listTransactions st uid f)
    ∧ (listTransactions st uid f).length ≤ 100
    ∧ ∀ t ∈ listTransactions st uid f,
        t.user = uid
        ∧ (∀ k, f.type = some k → t.type = k)
        ∧ (∀ c, f.category = some c → t.category = c)
        ∧ (∀ d, f.startDate = some d → d ≤ t.date)
        ∧ (∀ d, f.endDate = some d → t.date ≤ d) := by
  refine ⟨?_, ?_, ?_⟩
  · exact (pairwise_sortByDateDesc _).sublist (List.take_sublist _ _)
  · exact List.length_take_le _ _
  · intro t ht
    have ht2 : t ∈ st.transactions.filter (matchesQuery uid f) :=
      mem_sortByDateDesc.1 (List.take_subset _ _ ht)
    have hq := (List.mem_filter.1 ht2).2
    unfold matchesQuery at hq
    simp only [Bool.and_eq_true, decide_eq_true_eq] at hq
    obtain ⟨⟨⟨⟨h1, h2⟩, h3⟩, h4⟩, h5⟩ := hq
    refine ⟨h1, ?_, ?_, ?_, ?_⟩
    · intro k hk
      rw [hk] at h2
      simpa using h2
    · intro c hc
      rw [hc] at h3
      simpa using h3
    · intro d hd
      rw [hd] at h4
      simpa using h4
    · intro d hd
      rw [hd] at h5
      simpa using h5

/-- C8 witness: a concrete filtered list; the returned entry is owned by the
caller and satisfies the supplied kind and date-range filters. -/
theorem list_sorted_capped_scoped_witness :
    List.Pairwise (fun a b => b.date ≤ a.date)
      (listTransactions ⟨[⟨1, 1, TxKind.income, 5, "Salary", 10, none⟩,
                          ⟨2, 1, TxKind.expense, 3, "Food", 15, none⟩]⟩ 1
        ⟨some TxKind.income, none, some 0, some 20⟩)
    ∧ ((⟨1, 1, TxKind.income, 5, "Salary", 10, none⟩ : Transaction).user = 1
        ∧ (∀ k, (⟨some TxKind.income, none, some 0, some 20⟩ : ListFilters).type = some k →
            (⟨1, 1, TxKind.income, 5, "Salary", 10, none⟩ : Transaction).type = k)
        ∧ (∀ c, (⟨some TxKind.income, none, some 0, some 20⟩ : ListFilters).category = some c →
            (⟨1, 1, TxKind.income, 5, "Salary", 10, none⟩ : Transaction).category = c)
        ∧ (∀ d, (⟨some TxKind.income, none, some 0, some 20⟩ : ListFilters).startDate = some d →
            d ≤ (⟨1, 1, TxKind.income, 5, "Salary", 10, none⟩ : Transaction).date)
        ∧ (∀ d, (⟨some TxKind.income, none, some 0, some 20⟩ : ListFilters).endDate = some d →
            (⟨1, 1, TxKind.income, 5, "Salary", 10, none⟩ : Transaction).date ≤ d)) :=
  ⟨(list_sorted_capped_scoped ⟨[⟨1, 1, TxKind.income, 5, "Salary", 10, none⟩,
      ⟨2, 1, TxKind.expense, 3, "Food", 15, none⟩]⟩ 1
      ⟨some TxKind.income, none, some 0, some 20⟩).1,
   (list_sorted_capped_scoped ⟨[⟨1, 1, TxKind.income, 5, "Salary", 10, none⟩,
      ⟨2, 1, TxKind.expense, 3, "Food", 15, none⟩]⟩ 1
      ⟨some TxKind.income, none, some 0, some 20⟩).2.2
     ⟨1, 1, TxKind.income, 5, "Salary", 10, none⟩ (by decide)⟩

/-- C6: the summary satisfies balance = totalIncome − totalExpenses, where
the totals are the sums of amounts of the identity's income and expense
entries over the full store (no 100-row cap), and the count covers all of
the identity's entries. -/
theorem summary_balance (st : TxStore) (uid : Nat) :
    (getSummary st uid).balance
      = (getSummary st uid).totalIncome - (getSummary st uid).totalExpenses
    ∧ (getSummary st uid).totalIncome
      = (((st.transactions.filter (fun t => decide (t.user = uid))).filter
            (fun t => decide (t.type = TxKind.income))).map Transaction.amount).sum
    ∧ (getSummary st uid).totalExpenses
      = (((st.transactions.filter (fun t => decide (t.user = uid))).filter
            (fun t => decide (t.type = TxKind.expense))).map Transaction.amount).sum
    ∧ (getSummary st uid).transactionCount
      = (st.transactions.filter (fun t => decide (t.user = uid))).length := by
  refine ⟨rfl, ?_, ?_, rfl⟩
  · simp [getSummary, foldl_add_amount]
  · simp [getSummary, foldl_add_amount]

/-- C7 counterexample: the schema only enforces `min 0` on `amount`, so a
successful update can store an entry whose amount is 0, refuting the claimed
strict `amount > 0` invariant over all operations. -/
theorem update_amount_zero_cex :
    updateTransaction ⟨[⟨1, 1, TxKind.expense, 5, "Food", 10, none⟩]⟩ 1 1
        ⟨none, none, some 0, none, none, none⟩
      = (.ok ⟨1, 1, TxKind.expense, 0, "Food", 10, none⟩,
         ⟨[⟨1, 1, TxKind.expense, 0, "Food", 10, none⟩]⟩)
    ∧ (⟨1, 1, TxKind.expense, 0, "Food", 10, none⟩ : Transaction)
        ∈ (updateTransaction ⟨[⟨1, 1, TxKind.expense, 5, "Food", 10, none⟩]⟩ 1 1
            ⟨none, none, some 0, none, none, none⟩).2.transactions
    ∧ ¬ (0 < (⟨1, 1, TxKind.expense, 0, "Food", 10, none⟩ : Transaction).amount) :=
  ⟨rfl, by decide, by decide⟩

/-- C7 (amended): every stored entry has kind in the closed two-value set
and amount ≥ 0 (the schema minimum is 0, not strictly positive). Create
rejects absent or falsy kind, amount, category, date with the 400
missing-field error; a successful create persists an entry owned by the
caller with amount strictly positive (zero is falsy-blocked at create);
a successful update re-validates to amount ≥ 0, so update — unlike create —
can store an amount of exactly 0, but never a negative amount or a kind
outside the enum. -/
theorem stored_entry_validation (st : TxStore) (uid newId eid : Nat) :
    (∀ b : CreateBody,
       (b.type = none ∨ b.type = some "" ∨ b.amount = none ∨ b.amount = some 0
         ∨ b.category = none ∨ b.category = some "" ∨ b.date = none ∨ b.date = some 0) →
       createTransaction st uid newId b
         = (.error ⟨400, "Please provide type, amount, category, and date"⟩, st))
    ∧ (∀ b t st1, createTransaction st uid newId b = (.ok t, st1) →
         0 < t.amount ∧ t.user = uid ∧ (t.type = TxKind.income ∨ t.type = TxKind.expense)
           ∧ st1.transactions = st.transactions ++ [t])
    ∧ (∀ b t st1, updateTransaction st uid eid b = (.ok t, st1) →
         0 ≤ t.amount ∧ (t.type = TxKind.income ∨ t.type = TxKind.expense)
           ∧ ∀ s ∈ st1.transactions, s ∈ st.transactions ∨ s = t) := by
  refine ⟨?_, ?_, ?_⟩
  · intro b hb
    have hg : (falsyStr b.type || falsyInt b.amount || falsyStr b.category
        || falsyInt b.date) = true := by
      rcases hb with h | h | h | h | h | h | h | h <;> simp [falsyStr, falsyInt, h]
    simp [createTransaction, hg]
  · intro b t st1 h
    obtain ⟨h1, h2, h3, h4, h5⟩ := createTransaction_ok h
    exact ⟨h3, h1, h4, h5⟩
  · intro b t st1 h
    obtain ⟨h1, h2, h3, h4, h5⟩ := updateTransaction_ok h
    exact ⟨h1, h2, h5⟩

/-- C7 witness: a create call with a falsy amount is rejected; a successful
create stores a positive amount owned by the caller; a successful update
keeps the amount non-negative. -/
theorem stored_entry_validation_witness :
    createTransaction ⟨[]⟩ 1 3 ⟨some "income", none, some "Salary", some 10, none⟩
        = (.error ⟨400, "Please provide type, amount, category, and date"⟩, ⟨[]⟩)
    ∧ (0 < (⟨3, 1, TxKind.income, 50, "Salary", 10, none⟩ : Transaction).amount
        ∧ (⟨3, 1, TxKind.income, 50, "Salary", 10, none⟩ : Transaction).user = 1
        ∧ ((⟨3, 1, TxKind.income, 50, "Salary", 10, none⟩ : Transaction).type = TxKind.income
            ∨ (⟨3, 1, TxKind.income, 50, "Salary", 10, none⟩ : Transaction).type = TxKind.expense)
        ∧ (⟨[⟨3, 1, TxKind.income, 50, "Salary", 10, none⟩]⟩ : TxStore).transactions
            = (⟨[]⟩ : TxStore).transactions ++ [⟨3, 1, TxKind.income, 50, "Salary", 10, none⟩])
    ∧ (0 ≤ (⟨1, 1, TxKind.expense, 7, "Food", 10, none⟩ : Transaction).amount
        ∧ ((⟨1, 1, TxKind.expense, 7, "Food", 10, none⟩ : Transaction).type = TxKind.income
            ∨ (⟨1, 1, TxKind.expense, 7, "Food", 10, none⟩ : Transaction).type = TxKind.expense)
        ∧ ∀ s ∈ (⟨[⟨1, 1, TxKind.expense, 7, "Food", 10, none⟩]⟩ : TxStore).transactions,
            s ∈ (⟨[⟨1, 1, TxKind.expense, 5, "Food", 10, none⟩]⟩ : TxStore).transactions
              ∨ s = ⟨1, 1, TxKind.expense, 7, "Food", 10, none⟩) :=
  ⟨(stored_entry_validation ⟨[]⟩ 1 3 1).1 ⟨some "income", none, some "Salary", some 10, none⟩
      (Or.inr (Or.inr (Or.inl rfl))),
   (stored_entry_validation ⟨[]⟩ 1 3 1).2.1 ⟨some "income", some 50, some "Salary", some 10, none⟩
      ⟨3, 1, TxKind.income, 50, "Salary", 10, none⟩ ⟨[⟨3, 1, TxKind.income, 50, "Salary", 10, none⟩]⟩ rfl,
   (stored_entry_validation ⟨[⟨1, 1, TxKind.expense, 5, "Food", 10, none⟩]⟩ 1 3 1).2.2
      ⟨none, none, some 7, none, none, none⟩
      ⟨1, 1, TxKind.expense, 7, "Food", 10, none⟩ ⟨[⟨1, 1, TxKind.expense, 7, "Food", 10, none⟩]⟩ rfl⟩

/-- C10 counterexample: `Object.assign(transaction, req.body)` copies a
client-supplied `user` field onto the document, so a successful update with
a `user` field in the payload overwrites the entry's owner. -/
theorem update_owner_overwrite_cex :
    updateTransaction ⟨[⟨1, 1, TxKind.expense, 5, "Food", 10, none⟩]⟩ 1 1
        ⟨some 2, none, none, none, none, none⟩
      = (.ok ⟨1, 2, TxKind.expense, 5, "Food", 10, none⟩,
         ⟨[⟨1, 2, TxKind.expense, 5, "Food", 10, none⟩]⟩)
    ∧ (⟨1, 2, TxKind.expense, 5, "Food", 10, none⟩ : Transaction).user ≠ 1 :=
  ⟨rfl, by decide⟩

/-- C10 (amended): a successful update leaves the entry's owner unchanged
(still the calling identity) whenever the fields payload contains no
user field; a payload that does supply a user field overwrites the owner
through `Object.assign`. -/
theorem update_preserves_owner (st : TxStore) (uid eid : Nat) (b : UpdateBody)
    (t : Transaction) (st1 : TxStore)
    (hb : b.user = none)
    (h : updateTransaction st uid eid b = (.ok t, st1)) :
    t.user = uid :=
  (updateTransaction_ok h).2.2.2.1 hb

/-- C10 witness: an owner-free update of an owned entry keeps the owner. -/
theorem update_preserves_owner_witness :
    (⟨1, 1, TxKind.expense, 7, "Food", 10, none⟩ : Transaction).user = 1 :=
  update_preserves_owner ⟨[⟨1, 1, TxKind.expense, 5, "Food", 10, none⟩]⟩ 1 1
    ⟨none, none, some 7, none, none, none⟩
    ⟨1, 1, TxKind.expense, 7, "Food", 10, none⟩
    ⟨[⟨1, 1, TxKind.expense, 7, "Food", 10, none⟩]⟩ rfl rfl

/-- C2 counterexample: for an unverified identity, a login attempt that
supplies the empty string as secret fails with the 400 missing-field error,
not the 401 unverified error, so the claim does not hold for every supplied
secret. -/
theorem login_unverified_empty_secret_cex :
    findUserByEmail ⟨[⟨5, "Alice", "alice@mail.com", "h", false, none, none, none, none⟩]⟩
        "alice@mail.com"
      = some ⟨5, "Alice", "alice@mail.com", "h", false, none, none, none, none⟩
    ∧ (⟨5, "Alice", "alice@mail.com", "h", false, none, none, none, none⟩ : User).isVerified
        = false
    ∧ login ⟨[⟨5, "Alice", "alice@mail.com", "h", false, none, none, none, none⟩]⟩
        (some "alice@mail.com") (some "")
      = (.error ⟨400, "Please provide email and password"⟩,
         ⟨[⟨5, "Alice", "alice@mail.com", "h", false, none, none, none, none⟩]⟩)
    ∧ (⟨400, "Please provide email and password"⟩ : ApiError)
      ≠ ⟨401, "Please verify your email first"⟩ :=
  ⟨rfl, rfl, rfl, by decide⟩

/-- C2 (amended): for every identity whose verification flag is false and
whose (nonempty) email is supplied, login fails with the 401 unverified
error for every nonempty supplied secret, regardless of whether the secret
matches the stored hash — the password comparison never runs. An empty or
absent secret also fails, but with the 400 missing-field error instead. -/
theorem login_unverified_fails (st : AuthStore) (email pw : String) (u : User)
    (hu : findUserByEmail st email = some u)
    (hv : u.isVerified = false)
    (he : email ≠ "") (hp : pw ≠ "") :
    login st (some email) (some pw)
      = (.error ⟨401, "Please verify your email first"⟩, st) := by
  have hfe : falsyStr (some email) = false := by simp [falsyStr, he]
  have hfp : falsyStr (some pw) = false := by simp [falsyStr, hp]
  simp [login, hfe, hfp, hu, hv]

/-- C2 witness: a concrete unverified identity; login with an arbitrary
nonempty secret fails 401 unverified. -/
theorem login_unverified_fails_witness :
    login ⟨[⟨5, "Alice", "alice@mail.com", "h", false, none, none, none, none⟩]⟩
        (some "alice@mail.com") (some "totally-wrong")
      = (.error ⟨401, "Please verify your email first"⟩,
         ⟨[⟨5, "Alice", "alice@mail.com", "h", false, none, none, none, none⟩]⟩) :=
  login_unverified_fails ⟨[⟨5, "Alice", "alice@mail.com", "h", false, none, none, none, none⟩]⟩
    "alice@mail.com" "totally-wrong"
    ⟨5, "Alice", "alice@mail.com", "h", false, none, none, none, none⟩
    rfl rfl (by decide) (by decide)

/-- C3: for an existing unverified identity whose stored OTP matches the
supplied code, a verify attempt strictly after the stored expiry fails with
the 400 expired error and leaves the store unchanged; an attempt at or
before the expiry succeeds, issues a session token, and persists the
identity as verified with both OTP fields cleared. -/
theorem verify_email_expiry (st : AuthStore) (now : Nat) (email code : String)
    (u : User) (e : Nat)
    (hu : findUserByEmail st email = some u)
    (hnv : u.isVerified = false)
    (hotp : u.otp = some code)
    (hexp : u.otpExpires = some e)
    (he : email ≠ "") (hc : code ≠ "") :
    (e < now →
       verifyEmail st now (some email) (some code)
         = (.error ⟨400, "OTP has expired. Please request a new one."⟩, st))
    ∧ (¬ e < now →
       verifyEmail st now (some email) (some code)
         = (.ok ⟨generateToken u.id, u.id, u.name, u.email, true⟩,
            ⟨st.users.map (fun v => if v.id = u.id then
               { u with isVerified := true, otp := none, otpExpires := none } else v)⟩)
       ∧ { u with isVerified := true, otp := none, otpExpires := none }
           ∈ (verifyEmail st now (some email) (some code)).2.users) := by
  have hfe : falsyStr (some email) = false := by simp [falsyStr, he]
  have hfc : falsyStr (some code) = false := by simp [falsyStr, hc]
  constructor
  · intro hlt
    have hex : otpExpired now u.otpExpires = true := by
      simp [otpExpired, hexp, hlt]
    simp [verifyEmail, hfe, hfc, hu, hnv, hotp, hex]
  · intro hge
    have hex : otpExpired now u.otpExpires = false := by
      simp [otpExpired, hexp]
      omega
    have heq : verifyEmail st now (some email) (some code)
        = (.ok ⟨generateToken u.id, u.id, u.name, u.email, true⟩,
           ⟨st.users.map (fun v => if v.id = u.id then
              { u with isVerified := true, otp := none, otpExpires := none } else v)⟩) := by
      simp [verifyEmail, hfe, hfc, hu, hnv, hotp, hex]
    refine ⟨heq, ?_⟩
    rw [heq]
    exact List.mem_map.2 ⟨u, List.mem_of_find?_eq_some hu, by simp⟩

/-- C3 witness: one identity with OTP 123456 expiring at time 1000; a verify
at time 2000 with the matching code fails expired, and a verify at time 500
succeeds with a token. -/
theorem verify_email_expiry_witness :
    verifyEmail ⟨[⟨5, "Alice", "alice@mail.com", "h", false, some "123456", some 1000, none, none⟩]⟩
        2000 (some "alice@mail.com") (some "123456")
      = (.error ⟨400, "OTP has expired. Please request a new one."⟩,
         ⟨[⟨5, "Alice", "alice@mail.com", "h", false, some "123456", some 1000, none, none⟩]⟩)
    ∧ verifyEmail ⟨[⟨5, "Alice", "alice@mail.com", "h", false, some "123456", some 1000, none, none⟩]⟩
        500 (some "alice@mail.com") (some "123456")
      = (.ok ⟨generateToken 5, 5, "Alice", "alice@mail.com", true⟩,
         ⟨[⟨5, "Alice", "alice@mail.com", "h", true, none, none, none, none⟩]⟩) :=
  ⟨(verify_email_expiry
      ⟨[⟨5, "Alice", "alice@mail.com", "h", false, some "123456", some 1000, none, none⟩]⟩
      2000 "alice@mail.com" "123456"
      ⟨5, "Alice", "alice@mail.com", "h", false, some "123456", some 1000, none, none⟩ 1000
      rfl rfl rfl rfl (by decide) (by decide)).1 (by decide),
   ((verify_email_expiry
      ⟨[⟨5, "Alice", "alice@mail.com", "h", false, some "123456", some 1000, none, none⟩]⟩
      500 "alice@mail.com" "123456"
      ⟨5, "Alice", "alice@mail.com", "h", false, some "123456", some 1000, none, none⟩ 1000
      rfl rfl rfl rfl (by decide) (by decide)).2 (by decide)).1⟩

/-- C4: a verify attempt on an unverified identity with a supplied code
different from the stored OTP returns an error and leaves the store — hence
the identity's verification flag and OTP fields — unchanged. -/
theorem verify_email_mismatch_atomic (st : AuthStore) (now : Nat) (email codeIn : String)
    (u : User)
    (hu : findUserByEmail st email = some u)
    (hnv : u.isVerified = false)
    (hm : u.otp ≠ some codeIn) :
    (verifyEmail st now (some email) (some codeIn)).2 = st
    ∧ ∃ err, (verifyEmail st now (some email) (some codeIn)).1 = .error err := by
  by_cases he : email = ""
  · have heq : verifyEmail st now (some email) (some codeIn)
        = (.error ⟨400, "Please provide email and OTP"⟩, st) := by
      simp [verifyEmail, falsyStr, he]
    rw [heq]
    exact ⟨rfl, _, rfl⟩
  · by_cases hc : codeIn = ""
    · have heq : verifyEmail st now (some email) (some codeIn)
          = (.error ⟨400, "Please provide email and OTP"⟩, st) := by
        simp [verifyEmail, falsyStr, he, hc]
      rw [heq]
      exact ⟨rfl, _, rfl⟩
    · have hfe : falsyStr (some email) = false := by simp [falsyStr, he]
      have hfc : falsyStr (some codeIn) = false := by simp [falsyStr, hc]
      have heq : verifyEmail st now (some email) (some codeIn)
          = (.error ⟨400, "Invalid OTP"⟩, st) := by
        simp [verifyEmail, hfe, hfc, hu, hnv, hm]
      rw [heq]
      exact ⟨rfl, _, rfl⟩

/-- C4 witness: a wrong code against stored OTP 123456 errors and the stored
identity keeps its unverified state and OTP fields. -/
theorem verify_email_mismatch_atomic_witness :
    (verifyEmail ⟨[⟨5, "Alice", "alice@mail.com", "h", false, some "123456", some 1000, none, none⟩]⟩
        700 (some "alice@mail.com") (some "000000")).2
      = ⟨[⟨5, "Alice", "alice@mail.com", "h", false, some "123456", some 1000, none, none⟩]⟩
    ∧ ∃ err, (verifyEmail
        ⟨[⟨5, "Alice", "alice@mail.com", "h", false, some "123456", some 1000, none, none⟩]⟩
        700 (some "alice@mail.com") (some "000000")).1 = .error err :=
  verify_email_mismatch_atomic
    ⟨[⟨5, "Alice", "alice@mail.com", "h", false, some "123456", some 1000, none, none⟩]⟩
    700 "alice@mail.com" "000000"
    ⟨5, "Alice", "alice@mail.com", "h", false, some "123456", some 1000, none, none⟩
    rfl rfl (by decide)

/-- C5 counterexample: a registration with a previously unused email but a
secret shorter than the schema minimum of 6 characters fails (500 validation
error) instead of succeeding, so the claim does not hold for all
registrations with a previously unused email. -/
theorem register_short_secret_cex :
    findUserByEmail ⟨[]⟩ "alice@mail.com" = none
    ∧ register ⟨[]⟩ 0 0 0 7 true (some "Alice") (some "alice@mail.com") (some "abc")
        = (.error ⟨500, "User validation failed"⟩, ⟨[]⟩) :=
  ⟨rfl, rfl⟩

/-- C5 (amended): for every registration with a previously unused email
whose inputs pass the user-schema validation (nonempty trimmed name,
well-formed email, secret of length at least 6), the identity is persisted
with its secret replaced by the salted bcrypt hash — which never equals the
plaintext — before the OTP mail is dispatched, and when the dispatch
succeeds the call succeeds with a response carrying only email and name,
never the plaintext secret. -/
theorem register_hashed_secret (st : AuthStore) (now rnd salt newId : Nat) (mailOk : Bool)
    (name email pw : String)
    (hfresh : findUserByEmail st email = none)
    (hname : strTrim name ≠ "")
    (hemail : emailValid (normalizeEmail email) = true)
    (hpw : 6 ≤ pw.length) :
    (register st now rnd salt newId mailOk (some name) (some email) (some pw)).2
      = ⟨st.users ++
          [{ id := newId, name := strTrim name, email := normalizeEmail email,
             password := bcryptHash salt pw, isVerified := false,
             otp := some (otpString rnd), otpExpires := some (now + otpWindowMs),
             resetPasswordOTP := none, resetPasswordExpires := none }]⟩
    ∧ bcryptHash salt pw ≠ pw
    ∧ (mailOk = true →
        (register st now rnd salt newId mailOk (some name) (some email) (some pw)).1
          = .ok ⟨normalizeEmail email, strTrim name⟩) := by
  have hne : name ≠ "" := by
    intro h
    apply hname
    rw [h]
    rfl
  have hee : email ≠ "" := by
    intro h
    rw [h] at hemail
    exact absurd hemail (by decide)
  have hpe : pw ≠ "" := by
    intro h
    rw [h] at hpw
    exact absurd hpw (by decide)
  have hfn : falsyStr (some name) = false := by simp [falsyStr, hne]
  have hfe : falsyStr (some email) = false := by simp [falsyStr, hee]
  have hfp : falsyStr (some pw) = false := by simp [falsyStr, hpe]
  have hlen : ¬ (pw.length < 6) := by omega
  refine ⟨?_, bcryptHash_ne salt pw, ?_⟩
  · simp only [register, hfn, hfe, hfp, hfresh, Bool.or_self, Bool.false_or, Bool.or_false,
      Option.getD_some]
    simp [hname, hemail, hlen]
    split <;> rfl
  · intro hmail
    simp [register, hfn, hfe, hfp, hfresh, hname, hemail, hlen, hmail]

/-- C5 witness: a concrete valid registration on an empty store persists the
bcrypt-hashed secret and returns only email and name. -/
theorem register_hashed_secret_witness :
    (register ⟨[]⟩ 0 0 0 7 true (some "Alice") (some "alice@mail.com") (some "secret1")).2
      = ⟨[] ++
          [{ id := 7, name := strTrim "Alice", email := normalizeEmail "alice@mail.com",
             password := bcryptHash 0 "secret1", isVerified := false,
             otp := some (otpString 0), otpExpires := some (0 + otpWindowMs),
             resetPasswordOTP := none, resetPasswordExpires := none }]⟩
    ∧ bcryptHash 0 "secret1" ≠ "secret1"
    ∧ (true = true →
        (register ⟨[]⟩ 0 0 0 7 true (some "Alice") (some "alice@mail.com") (some "secret1")).1
          = .ok ⟨normalizeEmail "alice@mail.com", strTrim "Alice"⟩) :=
  register_hashed_secret ⟨[]⟩ 0 0 0 7 true "Alice" "alice@mail.com" "secret1"
    rfl (by decide) (by decide) (by decide)

/-- C9: for an existing identity, a password-reset request stores the fresh
reset OTP and expiry before the notification dispatch, and a dispatch
failure surfaces as an error without rolling the OTP issuance back: the
returned store still holds the identity with the new reset OTP and expiry. -/
theorem forgot_password_persists_otp (st : AuthStore) (now rnd : Nat) (email : String)
    (u : User)
    (hu : findUserByEmail st email = some u)
    (he : email ≠ "") :
    forgotPassword st now rnd false (some email)
      = (.error ⟨500, "Failed to process request"⟩,
         ⟨st.users.map (fun v => if v.id = u.id then
            { u with resetPasswordOTP := some (otpString rnd),
                     resetPasswordExpires := some (now + otpWindowMs) } else v)⟩)
    ∧ { u with resetPasswordOTP := some (otpString rnd),
               resetPasswordExpires := some (now + otpWindowMs) }
        ∈ (forgotPassword st now rnd false (some email)).2.users := by
  have hfe : falsyStr (some email) = false := by simp [falsyStr, he]
  have heq : forgotPassword st now rnd false (some email)
      = (.error ⟨500, "Failed to process request"⟩,
         ⟨st.users.map (fun v => if v.id = u.id then
            { u with resetPasswordOTP := some (otpString rnd),
                     resetPasswordExpires := some (now + otpWindowMs) } else v)⟩) := by
    simp [forgotPassword, hfe, hu]
  refine ⟨heq, ?_⟩
  rw [heq]
  exact List.mem_map.2 ⟨u, List.mem_of_find?_eq_some hu, by simp⟩

/-- C9 witness: a failed dispatch for a concrete identity still returns a
store holding the fresh reset OTP and its 10-minute expiry. -/
theorem forgot_password_persists_otp_witness :
    forgotPassword ⟨[⟨5, "Alice", "alice@mail.com", "h", true, none, none, none, none⟩]⟩
        70 9 false (some "alice@mail.com")
      = (.error ⟨500, "Failed to process request"⟩,
         ⟨[⟨5, "Alice", "alice@mail.com", "h", true, none, none,
            some (otpString 9), some (70 + otpWindowMs)⟩]⟩)
    ∧ (⟨5, "Alice", "alice@mail.com", "h", true, none, none,
        some (otpString 9), some (70 + otpWindowMs)⟩ : User)
        ∈ (forgotPassword ⟨[⟨5, "Alice", "alice@mail.com", "h", true, none, none, none, none⟩]⟩
            70 9 false (some "alice@mail.com")).2.users :=
  forgot_password_persists_otp
    ⟨[⟨5, "Alice", "alice@mail.com", "h", true, none, none, none, none⟩]⟩
    70 9 "alice@mail.com"
    ⟨5, "Alice", "alice@mail.com", "h", true, none, none, none, none⟩
    rfl (by decide)

end Centsible
